import Mathlib

/-!
Verification of the MCP client core of this repository
(`backend/services/mcp_client_fixed.py` and the singleton reset logic in
`backend/services/adk_mcp_integration.py`).

The embedding is shallow: every Python function of the client is translated
into an executable Lean definition.  Python values flowing through the client
are JSON values (`json.loads` output), modelled by the inductive `Json`
below, with Python `None` identified with JSON `null` (in CPython they are
the same object, so the two are indistinguishable at every interface of this
code).  Exceptions that the code can raise and that escape a given function
are modelled with an explicit `Except PyErr` result; exceptions that the
code catches itself are resolved inside the definitions, exactly where the
corresponding `try/except` sits in the source.

The network is modelled by a `NetEnv` record giving the responses of the
remote server and of the local OAuth authority for one exchange sequence;
the client definitions are deterministic functions of the environment and of
the mutable client state (`ClientState`), and additionally return the trace
of wire exchanges they perform, so that properties such as "no tools/call is
sent before the session is initialized" are statements about the trace.
-/

/-- JSON values, the data model of every payload handled by the client.
Numbers are modelled as integers: every numeric literal appearing in the
client and in its protocol examples is an integer, and no claim concerns
floating-point payloads. -/
inductive Json where
  | null
  | bool (b : Bool)
  | num (n : Int)
  | str (s : String)
  | arr (elems : List Json)
  | obj (fields : List (String × Json))
deriving Repr

/-- Exceptions of the Python runtime that the client code can raise. -/
inductive PyErr where
  | typeError
  | keyError
  | attributeError
deriving DecidableEq, Repr

/-- Python truthiness (`bool(x)`) on JSON values: `None`, `False`, `0`,
`""`, `[]` and `{}` are falsy. -/
def Json.truthy : Json → Bool
  | .null => false
  | .bool b => b
  | .num n => n != 0
  | .str s => s != ""
  | .arr xs => !xs.isEmpty
  | .obj kvs => !kvs.isEmpty

/-- First-match association-list lookup; on the output of `jsonLoads` keys
are unique (duplicates are collapsed last-wins while parsing, as Python
`dict` does), so this is Python `dict` lookup. -/
def lookupKV (kvs : List (String × Json)) (k : String) : Option Json :=
  match kvs.find? (fun p => p.1 == k) with
  | some p => some p.2
  | none => none

/-- Key-membership test on an association list. -/
def hasKey (kvs : List (String × Json)) (k : String) : Bool :=
  kvs.any (fun p => p.1 == k)

/-- Naive substring test, the semantics of Python `needle in haystack` on
strings. -/
def strContains (hay needle : String) : Bool :=
  (List.range (hay.toList.length + 1)).any
    (fun i => (hay.toList.drop i).take needle.toList.length = needle.toList)

/-- Python `k in v`: key test on dicts, membership on lists, substring test
on strings; `TypeError` on `None`, booleans and numbers. -/
def pyContains (v : Json) (k : String) : Except PyErr Bool :=
  match v with
  | .obj kvs => .ok (hasKey kvs k)
  | .arr xs => .ok (xs.any (fun j => match j with | .str s => s == k | _ => false))
  | .str s => .ok (strContains s k)
  | _ => .error .typeError

/-- Python `v[k]` for a string key: dict lookup raising `KeyError` when the
key is absent, `TypeError` on every non-dict value. -/
def pyIndex (v : Json) (k : String) : Except PyErr Json :=
  match v with
  | .obj kvs =>
    match lookupKV kvs k with
    | some x => .ok x
    | none => .error .keyError
  | _ => .error .typeError

/-- Python `v.get(k, d)`: dict lookup with a default; `AttributeError` on
non-dict values (they have no `get` method). -/
def pyGet (v : Json) (k : String) (d : Json) : Except PyErr Json :=
  match v with
  | .obj kvs => .ok ((lookupKV kvs k).getD d)
  | _ => .error .attributeError

/-- Characters removed by Python `str.strip()` with no argument. -/
def isPySpace (c : Char) : Bool :=
  c = ' ' || c = '\t' || c = '\n' || c = '\r' || c.toNat == 11 || c.toNat == 12

/-- Python `str.strip()` on a character list. -/
def pyStripChars (cs : List Char) : List Char :=
  ((cs.dropWhile isPySpace).reverse.dropWhile isPySpace).reverse

/-- Python `str.strip()`. -/
def pyStrip (s : String) : String :=
  String.mk (pyStripChars s.toList)

/-- Python `text.split(sep)` for a one-character separator: every
occurrence splits, empty pieces are kept, and the empty text yields one
empty piece. -/
def splitOnChar (c : Char) : List Char → List (List Char)
  | [] => [[]]
  | x :: rest =>
    let r := splitOnChar c rest
    if x = c then [] :: r
    else
      match r with
      | h :: t => (x :: h) :: t
      | [] => [[x]]

/-- Python `text.split('\n')`. -/
def pySplitLines (s : String) : List String :=
  (splitOnChar '\n' s.toList).map String.mk

/-- The six characters of the SSE data marker `"data: "`. -/
def dataMark : List Char := ['d', 'a', 't', 'a', ':', ' ']

/-- `line.startswith('data: ')`. -/
def startsWithData (line : String) : Bool :=
  dataMark.isPrefixOf line.toList

/-- `line[6:]`, the payload after the data marker. -/
def dropData (line : String) : String :=
  String.mk (line.toList.drop 6)

/-- JSON whitespace accepted between tokens by `json.loads`. -/
def skipWs : List Char → List Char
  | [] => []
  | c :: cs => if c = ' ' || c = '\t' || c = '\n' || c = '\r' then skipWs cs else c :: cs

/-- Body of a JSON string literal after the opening quote: returns the
decoded characters and the remainder after the closing quote.  Covers the
escapes appearing in this codebase's payloads; `\uXXXX` escapes are outside
the modelled fragment. -/
def parseStringBody : List Char → Option (List Char × List Char)
  | [] => none
  | '\\' :: e :: cs =>
    (match e with
      | '"' => some '"'
      | '\\' => some '\\'
      | '/' => some '/'
      | 'n' => some '\n'
      | 't' => some '\t'
      | 'r' => some '\r'
      | 'b' => some (Char.ofNat 8)
      | 'f' => some (Char.ofNat 12)
      | _ => none).bind
      (fun c => (parseStringBody cs).map
        (fun p : List Char × List Char => (c :: p.1, p.2)))
  | '"' :: cs => some ([], cs)
  | c :: cs => (parseStringBody cs).map (fun p => (c :: p.1, p.2))

/-- Decimal digits to a natural number. -/
def digitsToNat (ds : List Char) : Nat :=
  ds.foldl (fun acc c => acc * 10 + (c.toNat - 48)) 0

/-- Integer literal: optional minus sign, digits, no leading zero; a
following `.`, `e` or `E` (a float) is outside the modelled fragment and is
rejected. -/
def parseNumber (cs : List Char) : Option (Json × List Char) :=
  let (neg, cs1) := match cs with
    | '-' :: rest => (true, rest)
    | _ => (false, cs)
  let ds := cs1.takeWhile (fun c => c.isDigit)
  let rest := cs1.dropWhile (fun c => c.isDigit)
  if ds.isEmpty then none
  else if ds.length > 1 && ds.headD '0' = '0' then none
  else match rest with
    | '.' :: _ => none
    | 'e' :: _ => none
    | 'E' :: _ => none
    | _ =>
      let n : Int := Int.ofNat (digitsToNat ds)
      some (.num (if neg then -n else n), rest)

/-- Insert-or-replace on an association list: Python `dict` insertion
(later value for a repeated key wins, position of the first occurrence is
kept). -/
def insertKV : List (String × Json) → String → Json → List (String × Json)
  | [], k, v => [(k, v)]
  | (k1, v1) :: rest, k, v =>
    if k1 == k then (k1, v) :: rest else (k1, v1) :: insertKV rest k v

/-- Collapse duplicate keys last-wins, as building a Python dict from the
parsed members does. -/
def dedupKVs (kvs : List (String × Json)) : List (String × Json) :=
  kvs.foldl (fun acc p => insertKV acc p.1 p.2) []

mutual

/-- One JSON value, fuel-indexed recursive descent. -/
def parseVal : Nat → List Char → Option (Json × List Char)
  | 0, _ => none
  | _ + 1, [] => none
  | fuel + 1, c :: cs =>
    if c = '{' then
      match skipWs cs with
      | '}' :: rest => some (.obj [], rest)
      | other => (parseObjItems fuel other).map (fun p => (.obj (dedupKVs p.1), p.2))
    else if c = '[' then
      match skipWs cs with
      | ']' :: rest => some (.arr [], rest)
      | other => (parseArrItems fuel other).map (fun p => (.arr p.1, p.2))
    else if c = '"' then
      (parseStringBody cs).map (fun p => (.str (String.mk p.1), p.2))
    else if c = 't' then
      if cs.take 3 = ['r', 'u', 'e'] then some (.bool true, cs.drop 3) else none
    else if c = 'f' then
      if cs.take 4 = ['a', 'l', 's', 'e'] then some (.bool false, cs.drop 4) else none
    else if c = 'n' then
      if cs.take 3 = ['u', 'l', 'l'] then some (.null, cs.drop 3) else none
    else
      parseNumber (c :: cs)

/-- Comma-separated array members up to the closing bracket. -/
def parseArrItems : Nat → List Char → Option (List Json × List Char)
  | 0, _ => none
  | fuel + 1, cs =>
    match parseVal fuel (skipWs cs) with
    | none => none
    | some (v, r) =>
      match skipWs r with
      | ',' :: r2 => (parseArrItems fuel r2).map (fun p => (v :: p.1, p.2))
      | ']' :: r2 => some ([v], r2)
      | _ => none

/-- Comma-separated object members up to the closing brace. -/
def parseObjItems : Nat → List Char → Option (List (String × Json) × List Char)
  | 0, _ => none
  | fuel + 1, cs =>
    match skipWs cs with
    | '"' :: r =>
      match parseStringBody r with
      | none => none
      | some (k, r1) =>
        match skipWs r1 with
        | ':' :: r2 =>
          match parseVal fuel (skipWs r2) with
          | none => none
          | some (v, r3) =>
            match skipWs r3 with
            | ',' :: r4 => (parseObjItems fuel r4).map (fun p => ((String.mk k, v) :: p.1, p.2))
            | '}' :: r4 => some ([(String.mk k, v)], r4)
            | _ => none
        | _ => none
    | _ => none

end

/-- Model of Python `json.loads` on the fragment this client exchanges
(objects, arrays, strings, integers, booleans, null): parse one value and
require that only whitespace follows, else fail as `json.JSONDecodeError`
does. -/
def jsonLoads (s : String) : Option Json :=
  match parseVal (s.length + 2) (skipWs s.toList) with
  | some (v, rest) => if skipWs rest = [] then some v else none
  | none => none

/-- SSE data line handling of `_parse_sse_response`: strip the line, check
the `"data: "` marker, drop it, and skip empty payloads and the `[DONE]`
sentinel. -/
def dataPayload (line : String) : Option String :=
  let l := pyStrip line
  if startsWithData l then
    let d := dropData l
    if d.toList ≠ [] ∧ d.toList ≠ "[DONE]".toList then some d else none
  else none

/-- The scanning loop of `_parse_sse_response`: the first line whose payload
parses as JSON yields the frame (`break`); payloads that fail to parse are
skipped (`except json.JSONDecodeError`). -/
def firstFrame (lines : List String) : Option Json :=
  lines.findSome? (fun line => (dataPayload line).bind jsonLoads)

/-- Line splitting of `_parse_sse_response`:
`response_text.strip().split('\n')`. -/
def sseLines (body : String) : List String :=
  pySplitLines (pyStrip body)

/-- The `structuredContent` / raw fallback at the end of the `result`
branch of `_parse_sse_response`. -/
def structuredFallback (result : Json) : Except PyErr Json :=
  match pyContains result "structuredContent" with
  | .error e => .error e
  | .ok true => pyIndex result "structuredContent"
  | .ok false => .ok result

/-- Normalization of one parsed frame, lines 325-367 of
`_parse_sse_response`: the falsy check (`if not sse_data`), the `error`
branch, the `content` branch with its text-as-JSON attempt, the
`structuredContent` branch and the raw fallbacks.  A `.error` value is an
exception reaching the enclosing `except`, which turns it into `None`. -/
def normalizeFrame (sse : Json) : Except PyErr Json :=
  if !sse.truthy then .ok .null
  else
    match pyContains sse "error" with
    | .error e => .error e
    | .ok true =>
      match pyIndex sse "error" with
      | .error e => .error e
      | .ok err =>
        match pyIndex err "message" with
        | .error e => .error e
        | .ok msg => .ok (.obj [("error", msg), ("success", .bool false)])
    | .ok false =>
      match pyContains sse "result" with
      | .error e => .error e
      | .ok false => .ok sse
      | .ok true =>
        match pyIndex sse "result" with
        | .error e => .error e
        | .ok result =>
          match pyContains result "content" with
          | .error e => .error e
          | .ok false => structuredFallback result
          | .ok true =>
            match pyIndex result "content" with
            | .error e => .error e
            | .ok content =>
              match content with
              | .arr (first :: _) =>
                (match pyGet first "text" (.str "") with
                | .error e => .error e
                | .ok text =>
                  if text.truthy then
                    match text with
                    | .str s =>
                      match jsonLoads s with
                      | some parsed => .ok parsed
                      | none => .ok (.obj [("text", .str s)])
                    | _ => .error .typeError
                  else .ok first)
              | _ => structuredFallback result

/-- `MCPClientFixed._parse_sse_response`, as a function of the response body
text.  The return value is the Python value returned to the caller, with
Python `None` (identical to JSON `null`) for the no-frame case and for any
exception caught by the enclosing `except Exception`. -/
def parse_sse_response (body : String) : Json :=
  match firstFrame (sseLines body) with
  | none => .null
  | some sse =>
    match normalizeFrame sse with
    | .ok v => v
    | .error _ => .null

/-- Mutable state of one `MCPClientFixed` instance: the aiohttp session
(`session`, present or closed), the JSON-RPC id counter (`_request_id`), the
captured session header (`_session_id`), the cached OAuth identity
(`_authenticated_user_id`) and the handshake flag (`_initialized`). -/
structure ClientState where
  session : Bool
  requestId : Nat
  sessionId : Option String
  authUserId : Option String
  initialized : Bool
deriving DecidableEq, Repr

/-- State of a freshly constructed `MCPClientFixed`. -/
def ClientState.new : ClientState :=
  { session := false, requestId := 0, sessionId := none,
    authUserId := none, initialized := false }

/-- One wire exchange performed by the client, in order of issue. -/
inductive Exchange where
  | initBare (id : Nat)
  | initFull (id : Nat)
  | identityProbe
  | identitySync (userId : String)
  | initNotify
  | toolsCall (id : Nat) (tool : String) (sessionHeader : Option String)
deriving DecidableEq, Repr

/-- Responses of the remote MCP server and of the local OAuth authority for
one exchange sequence: the session header of the bare initialize, the
status and SSE body of the full initialize, the locally authenticated user
(if some local port answers), whether the remote identity sync accepts it,
the status of the initialized notification, the identity reported by the
remote `google-oauth/user-info` endpoint, and the status and SSE body of
the tools/call exchange. -/
structure NetEnv where
  step1SessionId : Option String
  step2Status : Nat
  step2Body : String
  localAuthUser : Option String
  syncAccepts : Bool
  step4Status : Nat
  remoteUserInfo : Option String
  toolStatus : Nat
  toolBody : String
deriving Repr

/-- The server-info scanning loop of step 2 of
`_initialize_mcp_session` (lines 207-218): for each line of the raw body,
on a `data: ` line with a payload that is neither empty nor `[DONE]`, try
`json.loads`; a decode failure is swallowed, but the membership test
`'result' in parsed` raises `TypeError` on a non-container frame and that
exception is not caught. -/
def step2Scan : List String → Except PyErr Unit
  | [] => .ok ()
  | line :: rest =>
    if startsWithData line then
      let d := dropData line
      if d.toList ≠ [] ∧ d.toList ≠ "[DONE]".toList then
        match jsonLoads d with
        | some parsed =>
          match pyContains parsed "result" with
          | .error e => .error e
          | .ok true => .ok ()
          | .ok false => step2Scan rest
        | none => step2Scan rest
      else step2Scan rest
    else step2Scan rest

/-- Outcome of `_initialize_mcp_session`: the updated client state, the
exchanges performed, and the exception escaping to the caller, if any. -/
structure HSResult where
  state : ClientState
  trace : List Exchange
  exc : Option PyErr
deriving Repr

/-- State effect of the first two handshake steps of
`_initialize_mcp_session`: `_ensure_session` creates the aiohttp session,
the bare initialize consumes one request id and captures the
`mcp-session-id` response header when present, and the full initialize
consumes a second request id. -/
def handshake_pre (env : NetEnv) (s : ClientState) : ClientState :=
  let s1 := { s with session := true }
  let s2 := { s1 with requestId := s1.requestId + 1 }
  let s3 := match env.step1SessionId with
    | some sid => { s2 with sessionId := some sid }
    | none => s2
  { s3 with requestId := s3.requestId + 1 }

/-- `MCPClientFixed._authenticate_google_oauth`: probe local ports for an
authenticated user (`identityProbe`); when one is found, sync it with the
remote server (`identitySync`), recording the identity only when the
remote accepts; the function catches all its own exceptions, so it never
raises and failure changes no state. -/
def authenticate_google_oauth (env : NetEnv) (s : ClientState) :
    ClientState × List Exchange :=
  match env.localAuthUser with
  | none => (s, [.identityProbe])
  | some uid =>
    if env.syncAccepts then
      ({ s with authUserId := some uid }, [.identityProbe, .identitySync uid])
    else (s, [.identityProbe, .identitySync uid])

/-- The step-2 exchange as seen by `_initialize_mcp_session`: the body is
scanned only when the response status is 200. -/
def step2_exchange (env : NetEnv) : Except PyErr Unit :=
  if env.step2Status = 200 then step2Scan (pySplitLines env.step2Body)
  else .ok ()

/-- `MCPClientFixed._initialize_mcp_session`.  Early return when already
initialized; otherwise `_ensure_session`, the bare initialize (capturing
the `mcp-session-id` header when present), the full initialize (whose body
is only scanned for a debug acknowledgement when the status is 200, and
whose scan can raise), the Google-OAuth identity bridge, and the
initialized notification, whose 200/202 status sets `_initialized`. -/
def initialize_mcp_session (env : NetEnv) (s : ClientState) : HSResult :=
  if s.initialized then { state := s, trace := [], exc := none }
  else
    let s4 := handshake_pre env s
    match step2_exchange env with
    | .error e =>
      { state := s4,
        trace := [.initBare (s.requestId + 1), .initFull (s.requestId + 2)],
        exc := some e }
    | .ok _ =>
      let bridged := authenticate_google_oauth env s4
      let s6 := if env.step4Status = 200 || env.step4Status = 202 then
          { bridged.1 with initialized := true }
        else bridged.1
      { state := s6,
        trace := [.initBare (s.requestId + 1), .initFull (s.requestId + 2)]
          ++ bridged.2 ++ [.initNotify],
        exc := none }

/-- Outcome of a public client call: updated state, exchanges performed,
and either the returned Python value or the exception propagating to the
caller. -/
structure CallResult where
  state : ClientState
  trace : List Exchange
  result : Except PyErr Json
deriving Repr

/-- `MCPClientFixed.call_tool`.  Drives `_initialize_mcp_session` first
(outside any `try`, so its exception propagates), returns `None` when the
session is still not initialized, then builds the JSON-RPC request (which
increments the id counter), attaches the session header only when one was
acquired, and posts it; a missing aiohttp session raises `AttributeError`
inside the `try`, which the `except` turns into `None`, with no request
sent; a non-200 status also yields `None`. -/
def call_tool (env : NetEnv) (s : ClientState) (tool : String) : CallResult :=
  let hs := initialize_mcp_session env s
  match hs.exc with
  | some e => { state := hs.state, trace := hs.trace, result := .error e }
  | none =>
    let s1 := hs.state
    if !s1.initialized then { state := s1, trace := hs.trace, result := .ok .null }
    else
      let id := s1.requestId + 1
      let s2 := { s1 with requestId := id }
      if !s2.session then { state := s2, trace := hs.trace, result := .ok .null }
      else
        let ex := Exchange.toolsCall id tool s2.sessionId
        if env.toolStatus = 200 then
          { state := s2, trace := hs.trace ++ [ex],
            result := .ok (parse_sse_response env.toolBody) }
        else
          { state := s2, trace := hs.trace ++ [ex], result := .ok .null }

/-- The network fetch inside `MCPClientFixed._get_authenticated_user_id`
(after the cache miss): `_ensure_session`, then the remote
`google-oauth/user-info` endpoint; a truthy reported id is stringified,
cached and returned, otherwise `None`. -/
def get_authenticated_user_id_fetch (env : NetEnv) (s : ClientState) :
    ClientState × Option String :=
  let s1 := { s with session := true }
  match env.remoteUserInfo with
  | some uid =>
    if uid != "" then ({ s1 with authUserId := some uid }, some uid)
    else (s1, none)
  | none => (s1, none)

/-- `MCPClientFixed._get_authenticated_user_id`: return the cached identity
when truthy, else fetch it from the remote user-info endpoint. -/
def get_authenticated_user_id (env : NetEnv) (s : ClientState) :
    ClientState × Option String :=
  match s.authUserId with
  | some u => if u != "" then (s, some u) else get_authenticated_user_id_fetch env s
  | none => get_authenticated_user_id_fetch env s

/-- The distinguishable failure value returned by identity-requiring tool
wrappers when no authenticated user id is available. -/
def no_auth_error : Json :=
  .obj [("error", .str "No authenticated user"), ("success", .bool false)]

/-- `MCPClientFixed.get_comprehensive_insights` (identity-requiring tool
wrapper): with a falsy `user_id` argument it resolves the identity first
and returns `no_auth_error` without any wire exchange when none is found;
otherwise it calls the tool. -/
def get_comprehensive_insights (env : NetEnv) (s : ClientState)
    (userId : Option String) : CallResult :=
  let falsy := match userId with
    | none => true
    | some u => u == ""
  if falsy then
    let fetched := get_authenticated_user_id env s
    match fetched.2 with
    | none => { state := fetched.1, trace := [], result := .ok no_auth_error }
    | some _ => call_tool env fetched.1 "get_comprehensive_insights"
  else call_tool env s "get_comprehensive_insights"

/-- `MCPClientFixed.get_platform_examples`: a tool wrapper that requires no
identity. -/
def get_platform_examples (env : NetEnv) (s : ClientState) : CallResult :=
  call_tool env s "get_platform_examples"

/-- The two module-level singletons: `_adk_agent` in
`adk_mcp_integration.py` (modelled by whether it is present; its
`mcp_client` field always aliases the other singleton) and
`_mcp_client_fixed` in `mcp_client_fixed.py`. -/
structure GlobalState where
  adkAgent : Bool
  mcpClient : Option ClientState
deriving Repr

/-- Process start: both singletons unset. -/
def GlobalState.new : GlobalState :=
  { adkAgent := false, mcpClient := none }

/-- `get_mcp_client_fixed`: create the client singleton on first use,
afterwards return the existing instance. -/
def get_mcp_client_fixed (g : GlobalState) : GlobalState × ClientState :=
  match g.mcpClient with
  | some c => (g, c)
  | none => ({ g with mcpClient := some ClientState.new }, ClientState.new)

/-- `get_adk_marketing_agent`: create the agent singleton on first use; its
`initialize` acquires the MCP client via `get_mcp_client_fixed`. -/
def get_adk_marketing_agent (g : GlobalState) : GlobalState :=
  if g.adkAgent then g
  else
    let acquired := get_mcp_client_fixed g
    { acquired.1 with adkAgent := true }

/-- `reset_adk_marketing_agent`: when the agent singleton exists, its
`close` closes the shared MCP client's aiohttp session (`session = None` on
the client singleton, which `get_mcp_client_fixed` keeps returning) and the
agent singleton is dropped; every other client field survives. -/
def reset_adk_marketing_agent (g : GlobalState) : GlobalState :=
  if g.adkAgent then
    { adkAgent := false,
      mcpClient := g.mcpClient.map (fun c => { c with session := false }) }
  else g

/-- One tool invocation through the agent singleton: acquire the agent
(creating it and the client if needed), run `call_tool` on the shared
client, and store the client's new state back. -/
def agent_invoke (env : NetEnv) (g : GlobalState) (tool : String) :
    GlobalState × CallResult :=
  let g1 := get_adk_marketing_agent g
  match g1.mcpClient with
  | some c =>
    let r := call_tool env c tool
    ({ g1 with mcpClient := some r.state }, r)
  | none =>
    (g1, { state := ClientState.new, trace := [], result := .ok .null })

/-- A step-2 SSE body none of whose data payloads parses as JSON. -/
def unparsableStep2 (body : String) : Bool :=
  (pySplitLines body).all (fun line =>
    !(startsWithData line) || (jsonLoads (dropData line)).isNone)

/-- JSON-RPC id carried by an exchange, when it has one (notifications and
identity traffic have none). -/
def Exchange.reqId : Exchange → Option Nat
  | .initBare i => some i
  | .initFull i => some i
  | .toolsCall i _ _ => some i
  | _ => none

/-- Whether an exchange is a tools/call request. -/
def Exchange.isToolCall : Exchange → Bool
  | .toolsCall _ _ _ => true
  | _ => false

/-- The JSON-RPC ids of a trace, in order of issue. -/
def traceIds (t : List Exchange) : List Nat :=
  t.filterMap Exchange.reqId

/-- A sequence of `call_tool` invocations on one client instance, each with
its own environment; returns the final state and the concatenated wire
trace. -/
def run_calls : List (NetEnv × String) → ClientState → ClientState × List Exchange
  | [], s => (s, [])
  | (env, tool) :: rest, s =>
    let r := call_tool env s tool
    let tail := run_calls rest r.state
    (tail.1, r.trace ++ tail.2)

/-- Frame selection exactly as the claim words it (with the per-line
trimming the code actually performs made explicit): trim each line, collect
the lines beginning with the data marker, strip the marker, drop empty
payloads and the `[DONE]` sentinel, and take the first payload that parses
as JSON. -/
def claimFirstFrame (lines : List String) : Option Json :=
  ((((lines.map pyStrip).filter startsWithData).map dropData).filter
    (fun d => decide (d.toList ≠ [] ∧ d.toList ≠ "[DONE]".toList))).findSome?
    jsonLoads

/-- A `content` value the normalizer can use: a non-empty JSON array
(`isinstance(content, list) and len(content) > 0`). -/
def usableContent : Json → Bool
  | .arr (_ :: _) => true
  | _ => false

/-- An environment in which every exchange succeeds: a session header is
issued, the full initialize is acknowledged, a local user is found and
accepted by the remote sync, the notification returns 202, and the tool
call returns a structured result. -/
def healthyEnv : NetEnv :=
  { step1SessionId := some "sess-1", step2Status := 200,
    step2Body := "data: \x7b\"jsonrpc\":\"2.0\",\"id\":2,\"result\":\x7b\"serverInfo\":\x7b\"name\":\"srv\"\x7d\x7d\x7d",
    localAuthUser := some "user-7", syncAccepts := true,
    step4Status := 202, remoteUserInfo := some "user-7",
    toolStatus := 200,
    toolBody := "data: \x7b\"jsonrpc\":\"2.0\",\"id\":3,\"result\":\x7b\"structuredContent\":\x7b\"ok\":true\x7d\x7d\x7d" }

/-- Healthy environment except that the step-2 SSE body is not parsable as
JSON. -/
def unparsableStep2Env : NetEnv :=
  { healthyEnv with step2Body := "data: this is not json" }

/-- Healthy environment except that the step-2 SSE frame parses to the
number 5, a non-container value. -/
def nonContainerStep2Env : NetEnv :=
  { healthyEnv with step2Body := "data: 5" }

/-- Healthy environment except that the initialized notification is
rejected with status 500, so the handshake never completes. -/
def failedNotifyEnv : NetEnv :=
  { healthyEnv with step4Status := 500 }

/-- Healthy environment except that no local authority reports an
authenticated user and the remote user-info endpoint reports none either. -/
def noIdentityEnv : NetEnv :=
  { healthyEnv with localAuthUser := none, remoteUserInfo := none }

/-- The SSE body of testable property P2: a content array whose first
element carries the JSON text `{"a":1}`. -/
def p2Body : String :=
  "data: \x7b\"jsonrpc\":\"2.0\",\"id\":1,\"result\":\x7b\"content\":[\x7b\"text\":\"\x7b\\\"a\\\":1\x7d\"\x7d]\x7d\x7d"

/-- The SSE body of testable property P4: a JSON-RPC error frame with
message `boom`. -/
def p4Body : String :=
  "data: \x7b\"jsonrpc\":\"2.0\",\"id\":1,\"error\":\x7b\"message\":\"boom\"\x7d\x7d"

/-- The SSE body of testable property P3: a result carrying only
`structuredContent`. -/
def p3Body : String :=
  "data: \x7b\"result\":\x7b\"structuredContent\":\x7b\"x\":2\x7d\x7d\x7d"

/-- The SSE body of testable property P5: a result with neither `content`
nor `structuredContent`. -/
def p5Body : String :=
  "data: \x7b\"result\":\x7b\"foo\":\"bar\"\x7d\x7d"

/-- An SSE body whose frame has a content array whose first element has no
text but whose second element carries parsable JSON text. -/
def secondElementTextBody : String :=
  "data: \x7b\"result\":\x7b\"content\":[\x7b\"k\":1\x7d,\x7b\"text\":\"\x7b\\\"a\\\":1\x7d\"\x7d]\x7d\x7d"

/-- An SSE body whose only data line is preceded by a tab, so that the raw
line does not begin with the data marker. -/
def indentedLineBody : String :=
  "x\n\tdata: \x7b\"a\":1\x7d"

/-- An SSE body whose only frame is the valid but falsy empty object. -/
def emptyObjectBody : String :=
  "data: \x7b\x7d"

/-- The first tool invocation of a fresh process against the healthy
environment. -/
def firstInvoke : GlobalState × CallResult :=
  agent_invoke healthyEnv GlobalState.new "get_platform_examples"

/-- The next tool invocation after `reset_adk_marketing_agent`, in the same
healthy environment. -/
def secondInvoke : GlobalState × CallResult :=
  agent_invoke healthyEnv (reset_adk_marketing_agent firstInvoke.1)
    "get_platform_examples"
theorem lookupKV_some_hasKey {kvs : List (String × Json)} {k : String} {v : Json}
    (h : lookupKV kvs k = some v) : hasKey kvs k = true := by
  rw [lookupKV] at h
  rcases hf : kvs.find? (fun p => p.1 == k) with _ | p
  · rw [hf] at h
    exact absurd h (by simp)
  · have hp := List.find?_some hf
    have hm := List.mem_of_find?_eq_some hf
    exact List.any_eq_true.mpr ⟨p, hm, hp⟩

theorem lookupKV_none_hasKey {kvs : List (String × Json)} {k : String}
    (h : lookupKV kvs k = none) : hasKey kvs k = false := by
  rw [lookupKV] at h
  rcases hf : kvs.find? (fun p => p.1 == k) with _ | p
  · rw [hasKey, List.any_eq_false]
    rw [List.find?_eq_none] at hf
    intro p hp
    simp [hf p hp]
  · rw [hf] at h
    exact absurd h (by simp)

theorem lookupKV_some_ne_nil {kvs : List (String × Json)} {k : String} {v : Json}
    (h : lookupKV kvs k = some v) : kvs.isEmpty = false := by
  cases kvs with
  | nil =>
    rw [lookupKV] at h
    exact absurd h (by simp)
  | cons p rest => rfl

theorem structuredFallback_obj (rs : List (String × Json)) :
    structuredFallback (Json.obj rs) =
      .ok (match lookupKV rs "structuredContent" with
           | some sc => sc
           | none => Json.obj rs) := by
  cases hsc : lookupKV rs "structuredContent" with
  | none => simp [structuredFallback, pyContains, lookupKV_none_hasKey hsc, hsc]
  | some sc => simp [structuredFallback, pyContains, lookupKV_some_hasKey hsc, pyIndex, hsc]

theorem firstFrame_eq_claim (lines : List String) :
    firstFrame lines = claimFirstFrame lines := by
  induction lines with
  | nil => rfl
  | cons l rest ih =>
    rw [firstFrame, claimFirstFrame] at *
    by_cases hS : startsWithData (pyStrip l)
    · by_cases hK : (dropData (pyStrip l)).toList ≠ [] ∧
          (dropData (pyStrip l)).toList ≠ "[DONE]".toList
      · cases hj : jsonLoads (dropData (pyStrip l)) <;>
          simp_all [dataPayload, List.filter_cons]
      · rw [not_and_or, not_not, not_not] at hK
        rcases hK with hK | hK <;> simp_all [dataPayload, List.filter_cons]
    · simp_all [dataPayload, List.filter_cons]

theorem handshake_pre_requestId (env : NetEnv) (s : ClientState) :
    (handshake_pre env s).requestId = s.requestId + 2 := by
  rw [handshake_pre]
  cases env.step1SessionId <;> simp

theorem handshake_pre_session (env : NetEnv) (s : ClientState) :
    (handshake_pre env s).session = true := by
  rw [handshake_pre]
  cases env.step1SessionId <;> simp

theorem handshake_pre_authUserId (env : NetEnv) (s : ClientState) :
    (handshake_pre env s).authUserId = s.authUserId := by
  rw [handshake_pre]
  cases env.step1SessionId <;> simp

theorem auth_oauth_requestId (env : NetEnv) (s : ClientState) :
    (authenticate_google_oauth env s).1.requestId = s.requestId := by
  rw [authenticate_google_oauth]
  rcases env.localAuthUser with _ | uid
  · rfl
  · by_cases h : env.syncAccepts <;> simp [h]

theorem auth_oauth_session (env : NetEnv) (s : ClientState) :
    (authenticate_google_oauth env s).1.session = s.session := by
  rw [authenticate_google_oauth]
  rcases env.localAuthUser with _ | uid
  · rfl
  · by_cases h : env.syncAccepts <;> simp [h]

theorem auth_oauth_trace_ids (env : NetEnv) (s : ClientState) :
    traceIds (authenticate_google_oauth env s).2 = [] := by
  rw [authenticate_google_oauth]
  rcases env.localAuthUser with _ | uid
  · rfl
  · by_cases h : env.syncAccepts <;> simp [h, traceIds, Exchange.reqId]

theorem auth_oauth_no_toolcall (env : NetEnv) (s : ClientState) :
    ∀ e ∈ (authenticate_google_oauth env s).2, e.isToolCall = false := by
  rw [authenticate_google_oauth]
  rcases env.localAuthUser with _ | uid
  · intro e he
    simp at he
    simp [he, Exchange.isToolCall]
  · by_cases h : env.syncAccepts <;>
    · intro e he
      simp [h] at he
      rcases he with he | he <;> simp [he, Exchange.isToolCall]

theorem initialize_noop {env : NetEnv} {s : ClientState} (h : s.initialized = true) :
    initialize_mcp_session env s = { state := s, trace := [], exc := none } := by
  rw [initialize_mcp_session, if_pos h]

theorem initialize_ids (env : NetEnv) (s : ClientState) (h : s.initialized = false) :
    traceIds (initialize_mcp_session env s).trace = [s.requestId + 1, s.requestId + 2] ∧
    (initialize_mcp_session env s).state.requestId = s.requestId + 2 := by
  rw [initialize_mcp_session, if_neg (by simp [h])]
  cases hscan : step2_exchange env with
  | error e => simp [traceIds, Exchange.reqId, handshake_pre_requestId]
  | ok u =>
    constructor
    · have hids := auth_oauth_trace_ids env (handshake_pre env s)
      rw [traceIds] at hids
      simp [traceIds, List.filterMap_append, Exchange.reqId, hids]
    · by_cases h4 : (env.step4Status = 200 || env.step4Status = 202) = true <;>
        simp [h4, auth_oauth_requestId, handshake_pre_requestId]

theorem initialize_no_toolcall (env : NetEnv) (s : ClientState) :
    ∀ e ∈ (initialize_mcp_session env s).trace, e.isToolCall = false := by
  by_cases h : s.initialized = true
  · simp [initialize_noop h]
  · rw [initialize_mcp_session, if_neg h]
    cases hscan : step2_exchange env with
    | error e =>
      intro e he
      simp at he
      rcases he with he | he <;> simp [he, Exchange.isToolCall]
    | ok u =>
      intro e he
      simp at he
      rcases he with he | he | he | he
      · simp [he, Exchange.isToolCall]
      · simp [he, Exchange.isToolCall]
      · exact auth_oauth_no_toolcall env (handshake_pre env s) e he
      · simp [he, Exchange.isToolCall]

theorem step2Scan_all_unparsed : ∀ (lines : List String),
    (∀ l ∈ lines, !(startsWithData l) || (jsonLoads (dropData l)).isNone) →
    step2Scan lines = .ok ()
  | [], _ => rfl
  | l :: rest, h => by
    have hl := h l (by simp)
    have ih := step2Scan_all_unparsed rest (fun x hx => h x (by simp [hx]))
    rw [step2Scan]
    by_cases hS : startsWithData l
    · have hj : jsonLoads (dropData l) = none := by
        rw [hS] at hl
        simpa using hl
      simp [hS, hj, ih]
    · simp [hS, ih]

theorem step2Scan_of_unparsable {body : String} (h : unparsableStep2 body = true) :
    step2Scan (pySplitLines body) = .ok () := by
  apply step2Scan_all_unparsed
  intro l hl
  have := List.all_eq_true.mp h l hl
  simpa using this

theorem traceIds_append (a b : List Exchange) :
    traceIds (a ++ b) = traceIds a ++ traceIds b :=
  List.filterMap_append a b Exchange.reqId

theorem traceIds_toolsCall (i : Nat) (tool : String) (hd : Option String) :
    traceIds [Exchange.toolsCall i tool hd] = [i] := rfl

theorem call_tool_exc (env : NetEnv) (s : ClientState) (tool : String) (er : PyErr)
    (hexc : (initialize_mcp_session env s).exc = some er) :
    call_tool env s tool =
      { state := (initialize_mcp_session env s).state,
        trace := (initialize_mcp_session env s).trace,
        result := .error er } := by
  simp [call_tool, hexc]

theorem call_tool_noinit (env : NetEnv) (s : ClientState) (tool : String)
    (hexc : (initialize_mcp_session env s).exc = none)
    (hini : (initialize_mcp_session env s).state.initialized = false) :
    call_tool env s tool =
      { state := (initialize_mcp_session env s).state,
        trace := (initialize_mcp_session env s).trace,
        result := .ok .null } := by
  simp [call_tool, hexc, hini]

theorem call_tool_nosess (env : NetEnv) (s : ClientState) (tool : String)
    (hexc : (initialize_mcp_session env s).exc = none)
    (hini : (initialize_mcp_session env s).state.initialized = true)
    (hsess : (initialize_mcp_session env s).state.session = false) :
    call_tool env s tool =
      { state := { (initialize_mcp_session env s).state with
          requestId := (initialize_mcp_session env s).state.requestId + 1 },
        trace := (initialize_mcp_session env s).trace,
        result := .ok .null } := by
  simp [call_tool, hexc, hini, hsess]

theorem call_tool_send (env : NetEnv) (s : ClientState) (tool : String)
    (hexc : (initialize_mcp_session env s).exc = none)
    (hini : (initialize_mcp_session env s).state.initialized = true)
    (hsess : (initialize_mcp_session env s).state.session = true) :
    call_tool env s tool =
      { state := { (initialize_mcp_session env s).state with
          requestId := (initialize_mcp_session env s).state.requestId + 1 },
        trace := (initialize_mcp_session env s).trace ++
          [Exchange.toolsCall ((initialize_mcp_session env s).state.requestId + 1) tool
            (initialize_mcp_session env s).state.sessionId],
        result := if env.toolStatus = 200 then .ok (parse_sse_response env.toolBody)
          else .ok .null } := by
  by_cases htool : env.toolStatus = 200 <;> simp [call_tool, hexc, hini, hsess, htool]

theorem call_tool_ids (env : NetEnv) (s : ClientState) (tool : String) :
    List.Pairwise (fun a b => a < b) (traceIds (call_tool env s tool).trace) ∧
    (∀ i ∈ traceIds (call_tool env s tool).trace,
      s.requestId < i ∧ i ≤ (call_tool env s tool).state.requestId) ∧
    s.requestId ≤ (call_tool env s tool).state.requestId := by
  by_cases hin : s.initialized = true
  · have hnoop := @initialize_noop env s hin
    by_cases hsess : s.session = true
    · rw [call_tool_send env s tool (by rw [hnoop]) (by rw [hnoop]; exact hin)
        (by rw [hnoop]; exact hsess), hnoop]
      refine ⟨?_, ?_, ?_⟩
      · simp [traceIds, Exchange.reqId]
      · intro i hi
        simp [traceIds, Exchange.reqId] at hi
        try simp
        all_goals omega
      · simp
    · have hsf : s.session = false := by
        cases hv : s.session
        · rfl
        · exact absurd hv hsess
      rw [call_tool_nosess env s tool (by rw [hnoop]) (by rw [hnoop]; exact hin)
        (by rw [hnoop]; exact hsf), hnoop]
      refine ⟨?_, ?_, ?_⟩
      · simp [traceIds]
      · intro i hi
        simp [traceIds] at hi
      · simp
  · have hinf : s.initialized = false := by
      cases hv : s.initialized
      · rfl
      · exact absurd hv hin
    obtain ⟨hids, hreq⟩ := initialize_ids env s hinf
    cases hexc : (initialize_mcp_session env s).exc with
    | some er =>
      rw [call_tool_exc env s tool er hexc]
      refine ⟨?_, ?_, ?_⟩
      · rw [hids]
        simp
      · intro i hi
        rw [hids] at hi
        simp at hi
        try simp
        all_goals omega
      · try simp
        all_goals omega
    | none =>
      by_cases hini2 : (initialize_mcp_session env s).state.initialized = true
      · by_cases hsess : (initialize_mcp_session env s).state.session = true
        · rw [call_tool_send env s tool hexc hini2 hsess]
          refine ⟨?_, ?_, ?_⟩
          · rw [traceIds_append, hids, traceIds_toolsCall, hreq]
            simp [List.pairwise_cons]
          · intro i hi
            rw [traceIds_append, hids, traceIds_toolsCall, hreq] at hi
            simp at hi
            try simp
            all_goals omega
          · try simp
            all_goals omega
        · have hsf : (initialize_mcp_session env s).state.session = false := by
            cases hv : (initialize_mcp_session env s).state.session
            · rfl
            · exact absurd hv hsess
          rw [call_tool_nosess env s tool hexc hini2 hsf]
          refine ⟨?_, ?_, ?_⟩
          · rw [hids]
            simp
          · intro i hi
            rw [hids] at hi
            simp at hi
            try simp
            all_goals omega
          · try simp
            all_goals omega
      · have hini2f : (initialize_mcp_session env s).state.initialized = false := by
          cases hv : (initialize_mcp_session env s).state.initialized
          · rfl
          · exact absurd hv hini2
        rw [call_tool_noinit env s tool hexc hini2f]
        refine ⟨?_, ?_, ?_⟩
        · rw [hids]
          simp
        · intro i hi
          rw [hids] at hi
          simp at hi
          try simp
          all_goals omega
        · try simp
          all_goals omega

theorem run_calls_ids : ∀ (calls : List (NetEnv × String)) (s : ClientState),
    List.Pairwise (fun a b => a < b) (traceIds (run_calls calls s).2) ∧
    (∀ i ∈ traceIds (run_calls calls s).2,
      s.requestId < i ∧ i ≤ (run_calls calls s).1.requestId) ∧
    s.requestId ≤ (run_calls calls s).1.requestId
  | [], s => by simp [run_calls, traceIds]
  | (env, tool) :: rest, s => by
    obtain ⟨p1, b1, m1⟩ := call_tool_ids env s tool
    obtain ⟨p2, b2, m2⟩ := run_calls_ids rest (call_tool env s tool).state
    have h1 : (run_calls ((env, tool) :: rest) s).1 =
        (run_calls rest (call_tool env s tool).state).1 := rfl
    have h2 : (run_calls ((env, tool) :: rest) s).2 =
        (call_tool env s tool).trace ++ (run_calls rest (call_tool env s tool).state).2 := rfl
    rw [h1, h2]
    refine ⟨?_, ?_, ?_⟩
    · rw [traceIds_append, List.pairwise_append]
      refine ⟨p1, p2, ?_⟩
      intro a ha b hb
      have ha2 := (b1 a ha).2
      have hb2 := (b2 b hb).1
      omega
    · intro i hi
      rw [traceIds_append, List.mem_append] at hi
      rcases hi with hi | hi
      · have h := b1 i hi
        exact ⟨h.1, by omega⟩
      · have h := b2 i hi
        exact ⟨by omega, h.2⟩
    · omega

theorem initialize_ok (env : NetEnv) (s : ClientState)
    (hin : s.initialized = false)
    (hscan : step2_exchange env = .ok ())
    (h4 : env.step4Status = 200 ∨ env.step4Status = 202) :
    (initialize_mcp_session env s).exc = none ∧
    (initialize_mcp_session env s).state.initialized = true ∧
    (initialize_mcp_session env s).state.session = true := by
  have hok4 : (env.step4Status = 200 || env.step4Status = 202) = true := by
    rcases h4 with h | h <;> simp [h]
  rw [initialize_mcp_session, if_neg (by simp [hin]), hscan]
  simp [hok4, auth_oauth_session, handshake_pre_session]

theorem auth_oauth_failed_authUserId (env : NetEnv) (s : ClientState)
    (hid : env.localAuthUser = none ∨ env.syncAccepts = false) :
    (authenticate_google_oauth env s).1.authUserId = s.authUserId := by
  rw [authenticate_google_oauth]
  rcases henv : env.localAuthUser with _ | uid
  · rfl
  · rcases hid with h | h
    · exact absurd henv (by simp [h])
    · simp [h]

/-- Claim C1 (code bug evidence): the first invocation of a fresh process
performs the four handshake exchanges and one tools/call; after
`reset_adk_marketing_agent`, the next invocation performs no handshake
exchange at all (the client singleton survives with `_initialized` still
true), returns `None` because the closed transport raises inside the
`try`, and keeps the old session token, identity and id counter — instead
of re-running all four steps with a brand-new transport, session and
identity as the claim states. -/
theorem c1_reset_skips_handshake :
    firstInvoke.2.trace =
      [.initBare 1, .initFull 2, .identityProbe, .identitySync "user-7", .initNotify,
        .toolsCall 3 "get_platform_examples" (some "sess-1")] ∧
    secondInvoke.2.trace = [] ∧
    secondInvoke.2.result = .ok Json.null ∧
    secondInvoke.1.mcpClient = some
      { session := false, requestId := 4, sessionId := some "sess-1",
        authUserId := some "user-7", initialized := true } :=
  ⟨rfl, rfl, rfl, rfl⟩

/-- Claim C2 counterexample: with an unparsable step-2 SSE body (and a
successful notification), the handshake advances all the way to the
initialized state and no error of any kind is surfaced — the claim said
the state does not advance and a ProtocolError reaches the caller. -/
theorem c2_counterexample :
    (initialize_mcp_session unparsableStep2Env ClientState.new).state.initialized = true ∧
    (initialize_mcp_session unparsableStep2Env ClientState.new).exc = none :=
  ⟨rfl, rfl⟩

/-- Claim C2 (amended): if the SSE body of the full-initialize exchange is
unparsable (no data payload parses as JSON), the failure is silently
swallowed: no error is surfaced, the handshake continues, the session
still reaches the initialized state whenever the notification succeeds
with status 200 or 202, and a subsequent call does not re-try the
handshake (it returns immediately on the initialized flag). -/
theorem c2_silent_unparsable_step2 (env : NetEnv) (s : ClientState)
    (hinit : s.initialized = false)
    (hbody : unparsableStep2 env.step2Body = true)
    (h4 : env.step4Status = 200 ∨ env.step4Status = 202) :
    (initialize_mcp_session env s).exc = none ∧
    (initialize_mcp_session env s).state.initialized = true ∧
    ∀ env2, initialize_mcp_session env2 (initialize_mcp_session env s).state =
      { state := (initialize_mcp_session env s).state, trace := [], exc := none } := by
  have hscan : step2_exchange env = .ok () := by
    rw [step2_exchange]
    by_cases h200 : env.step2Status = 200 <;>
      simp [h200, step2Scan_of_unparsable hbody]
  have hok4 : (env.step4Status = 200 || env.step4Status = 202) = true := by
    rcases h4 with h | h <;> simp [h]
  have hmain : (initialize_mcp_session env s).exc = none ∧
      (initialize_mcp_session env s).state.initialized = true := by
    rw [initialize_mcp_session, if_neg (by simp [hinit]), hscan]
    simp [hok4]
  exact ⟨hmain.1, hmain.2, fun env2 => initialize_noop hmain.2⟩

/-- Witness for C2 at a concrete unparsable body and a concrete follow-up
environment. -/
theorem c2_witness :
    (initialize_mcp_session unparsableStep2Env ClientState.new).exc = none ∧
    (initialize_mcp_session unparsableStep2Env ClientState.new).state.initialized = true ∧
    initialize_mcp_session healthyEnv
        (initialize_mcp_session unparsableStep2Env ClientState.new).state =
      { state := (initialize_mcp_session unparsableStep2Env ClientState.new).state,
        trace := [], exc := none } := by
  have h := c2_silent_unparsable_step2 unparsableStep2Env ClientState.new rfl
    (by decide) (Or.inr rfl)
  exact ⟨h.1, h.2.1, h.2.2 healthyEnv⟩

/-- Claim C3 counterexample: when the step-2 SSE frame parses to the
non-container value 5, the membership test in the handshake raises
TypeError, which `call_tool` propagates to its caller: the handshake did
not complete, no tools/call was sent, but no failure result is returned
either — the call raises, where the claim promised a returned failure
result. -/
theorem c3_counterexample :
    (initialize_mcp_session nonContainerStep2Env ClientState.new).state.initialized = false ∧
    (call_tool nonContainerStep2Env ClientState.new "get_platform_examples").result =
      .error PyErr.typeError ∧
    (call_tool nonContainerStep2Env ClientState.new "get_platform_examples").trace =
      [.initBare 1, .initFull 2] :=
  ⟨rfl, rfl, rfl⟩

/-- Claim C3 (amended): a tools/call exchange appears in the trace only
when the handshake has reached the initialized state; when the handshake
returns without reaching it, `call_tool` returns the failure result `None`
and sends no tools/call; and when a handshake step raises, the exception
propagates to the caller (instead of a returned failure result) and still
no tools/call is sent. -/
theorem c3_ready_gating (env : NetEnv) (s : ClientState) (tool : String) :
    ((initialize_mcp_session env s).exc = none →
      (initialize_mcp_session env s).state.initialized = false →
      (call_tool env s tool).result = .ok Json.null ∧
      ∀ e ∈ (call_tool env s tool).trace, e.isToolCall = false) ∧
    (∀ er, (initialize_mcp_session env s).exc = some er →
      (call_tool env s tool).result = .error er ∧
      ∀ e ∈ (call_tool env s tool).trace, e.isToolCall = false) ∧
    (∀ i t hd, Exchange.toolsCall i t hd ∈ (call_tool env s tool).trace →
      (initialize_mcp_session env s).state.initialized = true) := by
  refine ⟨?_, ?_, ?_⟩
  · intro hexc hinit
    rw [call_tool, hexc]
    simp only [hinit]
    exact ⟨rfl, initialize_no_toolcall env s⟩
  · intro er hexc
    rw [call_tool, hexc]
    exact ⟨rfl, initialize_no_toolcall env s⟩
  · intro i t hd hmem
    by_contra hni
    have hinit : (initialize_mcp_session env s).state.initialized = false := by
      cases hv : (initialize_mcp_session env s).state.initialized
      · rfl
      · exact absurd hv hni
    rw [call_tool] at hmem
    cases hexc : (initialize_mcp_session env s).exc with
    | some er =>
      rw [hexc] at hmem
      have := initialize_no_toolcall env s _ hmem
      simp [Exchange.isToolCall] at this
    | none =>
      rw [hexc] at hmem
      simp only [hinit] at hmem
      have := initialize_no_toolcall env s _ hmem
      simp [Exchange.isToolCall] at this

/-- Witness for C3 at three concrete environments: a failed notification
(handshake completes without initializing, `None` returned), a raising
step-2 scan (exception propagated), and a healthy handshake whose trace
does contain a tools/call, forcing the initialized state. -/
theorem c3_witness :
    (call_tool failedNotifyEnv ClientState.new "get_platform_examples").result =
      .ok Json.null ∧
    (call_tool nonContainerStep2Env ClientState.new "t").result =
      .error PyErr.typeError ∧
    (initialize_mcp_session healthyEnv ClientState.new).state.initialized = true := by
  refine ⟨((c3_ready_gating failedNotifyEnv ClientState.new
    "get_platform_examples").1 rfl rfl).1, ?_, ?_⟩
  · exact ((c3_ready_gating nonContainerStep2Env ClientState.new "t").2.1
      PyErr.typeError rfl).1
  · exact (c3_ready_gating healthyEnv ClientState.new "get_platform_examples").2.2
      3 "get_platform_examples" (some "sess-1") (by decide)

/-- Claim C4: when the identity bridge fails (no local authority answers,
or the remote sync rejects the identity), the handshake still reaches the
initialized state with no identity recorded; a tool call that requires no
identity still succeeds (a tools/call is sent and its normalized body
returned), and an identity-requiring call - here with no identity
available from the remote user-info endpoint either - fails at invocation
time with the distinguishable no-authenticated-user error value, with no
wire exchange at all (so it is never sent with a wrong identity). -/
theorem c4_graceful_identity_failure (env : NetEnv)
    (hid : env.localAuthUser = none ∨ env.syncAccepts = false)
    (hremote : env.remoteUserInfo = none)
    (hscan : step2_exchange env = .ok ())
    (h4 : env.step4Status = 200 ∨ env.step4Status = 202)
    (htool : env.toolStatus = 200) :
    ((initialize_mcp_session env ClientState.new).state.initialized = true ∧
      (initialize_mcp_session env ClientState.new).state.authUserId = none) ∧
    ((get_platform_examples env ClientState.new).result =
        .ok (parse_sse_response env.toolBody) ∧
      ∃ e ∈ (get_platform_examples env ClientState.new).trace, e.isToolCall = true) ∧
    ((get_comprehensive_insights env ClientState.new none).result = .ok no_auth_error ∧
      (get_comprehensive_insights env ClientState.new none).trace = []) := by
  obtain ⟨hexc, hini, hsess⟩ := initialize_ok env ClientState.new rfl hscan h4
  have hauth : (initialize_mcp_session env ClientState.new).state.authUserId = none := by
    rw [initialize_mcp_session, if_neg (by simp [ClientState.new]), hscan]
    by_cases h4b : (env.step4Status = 200 || env.step4Status = 202) = true <;>
      simp [h4b, auth_oauth_failed_authUserId env _ hid, handshake_pre_authUserId,
        ClientState.new]
  refine ⟨⟨hini, hauth⟩, ?_, ?_⟩
  · rw [get_platform_examples, call_tool_send env ClientState.new _ hexc hini hsess]
    constructor
    · simp [htool]
    · refine ⟨Exchange.toolsCall ((initialize_mcp_session env ClientState.new).state.requestId + 1)
        "get_platform_examples" (initialize_mcp_session env ClientState.new).state.sessionId, ?_, rfl⟩
      simp
  · rw [get_comprehensive_insights]
    simp [get_authenticated_user_id, ClientState.new, get_authenticated_user_id_fetch, hremote]
/-- Witness for C4 at a concrete environment where no local authority
answers and the remote user-info endpoint reports no identity. -/
theorem c4_witness :
    (get_comprehensive_insights noIdentityEnv ClientState.new none).result =
      .ok no_auth_error ∧
    (get_platform_examples noIdentityEnv ClientState.new).result =
      .ok (parse_sse_response noIdentityEnv.toolBody) ∧
    (initialize_mcp_session noIdentityEnv ClientState.new).state.initialized = true := by
  have h := c4_graceful_identity_failure noIdentityEnv (Or.inl rfl) rfl rfl
    (Or.inr rfl) rfl
  exact ⟨h.2.2.1, h.2.1.1, h.1.1⟩

/-- Claim C5 counterexample: a frame whose content array has no text on
its first element but parsable JSON text on its second ("at least one
element exposing text") is not decoded — the normalizer returns the first
element unchanged, not `Content({a:1})`. -/
theorem c5_counterexample :
    parse_sse_response secondElementTextBody = Json.obj [("k", Json.num 1)] ∧
    Json.obj [("k", Json.num 1)] ≠ Json.obj [("a", Json.num 1)] :=
  ⟨rfl, by simp⟩

/-- Claim C5 (amended): for every response whose first parsed frame has a
result containing a non-empty content array whose FIRST element carries a
text string, the normalizer parses that text as JSON and returns the
parsed value when the text is non-empty and valid JSON, returns
`{'text': rawText}` when it is non-empty but not JSON, and returns the
first element itself when the text is empty; later elements are always
ignored. -/
theorem c5_first_element_text_decoding (body : String)
    (kvs rs fkvs : List (String × Json)) (rest : List Json) (s : String)
    (hframe : firstFrame (sseLines body) = some (Json.obj kvs))
    (hnoerr : lookupKV kvs "error" = none)
    (hres : lookupKV kvs "result" = some (Json.obj rs))
    (hcontent : lookupKV rs "content" = some (Json.arr (Json.obj fkvs :: rest)))
    (htext : lookupKV fkvs "text" = some (Json.str s)) :
    parse_sse_response body =
      (if s = "" then Json.obj fkvs
       else match jsonLoads s with
         | some parsed => parsed
         | none => Json.obj [("text", Json.str s)]) := by
  have h1 : hasKey kvs "error" = false := lookupKV_none_hasKey hnoerr
  have h2 : hasKey kvs "result" = true := lookupKV_some_hasKey hres
  have h3 : kvs.isEmpty = false := lookupKV_some_ne_nil hres
  have h4 : hasKey rs "content" = true := lookupKV_some_hasKey hcontent
  rw [parse_sse_response, hframe]
  by_cases hs : s = ""
  · simp [normalizeFrame, Json.truthy, h3, pyContains, h1, h2, pyIndex, hres, h4,
      hcontent, pyGet, htext, hs]
  · simp only [normalizeFrame, Json.truthy, h3, pyContains, h1, h2, pyIndex, hres, h4,
      hcontent, pyGet, htext, hs]
    cases hj : jsonLoads s <;>
      simp [normalizeFrame, Json.truthy, h3, pyContains, h1, h2, pyIndex, hres, h4,
        hcontent, pyGet, htext, hs, hj]

/-- Witness for C5 at the P2 body: the first element's text `{"a":1}` is
parsed and returned. -/
theorem c5_witness :
    parse_sse_response p2Body = Json.obj [("a", Json.num 1)] := by
  have h := c5_first_element_text_decoding p2Body
    [("jsonrpc", Json.str "2.0"), ("id", Json.num 1),
      ("result", Json.obj [("content",
        Json.arr [Json.obj [("text", Json.str "\x7b\"a\":1\x7d")]])])]
    [("content", Json.arr [Json.obj [("text", Json.str "\x7b\"a\":1\x7d")]])]
    [("text", Json.str "\x7b\"a\":1\x7d")] [] "\x7b\"a\":1\x7d" rfl rfl rfl rfl rfl
  simpa using h

/-- Claim C6: for every response whose first parsed frame carries an
`error` object with a `message`, the normalizer returns the tagged error
value `{'error': message, 'success': False}` — a returned value, never a
raised exception (`parse_sse_response` is total on its environment). -/
theorem c6_error_decoding (body : String) (kvs ekvs : List (String × Json)) (msg : Json)
    (hframe : firstFrame (sseLines body) = some (Json.obj kvs))
    (herr : lookupKV kvs "error" = some (Json.obj ekvs))
    (hmsg : lookupKV ekvs "message" = some msg) :
    parse_sse_response body = Json.obj [("error", msg), ("success", Json.bool false)] := by
  have h1 : hasKey kvs "error" = true := lookupKV_some_hasKey herr
  have h2 : kvs.isEmpty = false := lookupKV_some_ne_nil herr
  rw [parse_sse_response, hframe]
  simp [normalizeFrame, Json.truthy, h2, pyContains, h1, pyIndex, herr, hmsg]

/-- Witness for C6 at the P4 body: `Error("boom")`. -/
theorem c6_witness :
    parse_sse_response p4Body =
      Json.obj [("error", Json.str "boom"), ("success", Json.bool false)] :=
  c6_error_decoding p4Body
    [("jsonrpc", Json.str "2.0"), ("id", Json.num 1),
      ("error", Json.obj [("message", Json.str "boom")])]
    [("message", Json.str "boom")] (Json.str "boom") rfl rfl rfl

/-- Claim C7: for every frame whose result lacks a usable content array
(no `content` key, or a value that is not a non-empty list), the
normalizer returns `result.structuredContent` when that key is present and
the unchanged result otherwise. -/
theorem c7_structured_and_raw (body : String) (kvs rs : List (String × Json))
    (hframe : firstFrame (sseLines body) = some (Json.obj kvs))
    (hnoerr : lookupKV kvs "error" = none)
    (hres : lookupKV kvs "result" = some (Json.obj rs))
    (hnc : ∀ c, lookupKV rs "content" = some c → usableContent c = false) :
    parse_sse_response body =
      (match lookupKV rs "structuredContent" with
       | some sc => sc
       | none => Json.obj rs) := by
  have h1 : hasKey kvs "error" = false := lookupKV_none_hasKey hnoerr
  have h2 : hasKey kvs "result" = true := lookupKV_some_hasKey hres
  have h3 : kvs.isEmpty = false := lookupKV_some_ne_nil hres
  rw [parse_sse_response, hframe]
  cases hc : lookupKV rs "content" with
  | none =>
    have h4 : hasKey rs "content" = false := lookupKV_none_hasKey hc
    simp [normalizeFrame, Json.truthy, h3, pyContains, h1, h2, pyIndex, hres, h4,
      structuredFallback_obj]
  | some c =>
    have h4 : hasKey rs "content" = true := lookupKV_some_hasKey hc
    have h5 : usableContent c = false := hnc c hc
    match c, h5 with
    | Json.null, _ =>
      simp [normalizeFrame, Json.truthy, h3, pyContains, h1, h2, pyIndex, hres, h4, hc,
        structuredFallback_obj]
    | Json.bool b, _ =>
      simp [normalizeFrame, Json.truthy, h3, pyContains, h1, h2, pyIndex, hres, h4, hc,
        structuredFallback_obj]
    | Json.num n, _ =>
      simp [normalizeFrame, Json.truthy, h3, pyContains, h1, h2, pyIndex, hres, h4, hc,
        structuredFallback_obj]
    | Json.str st, _ =>
      simp [normalizeFrame, Json.truthy, h3, pyContains, h1, h2, pyIndex, hres, h4, hc,
        structuredFallback_obj]
    | Json.arr [], _ =>
      simp [normalizeFrame, Json.truthy, h3, pyContains, h1, h2, pyIndex, hres, h4, hc,
        structuredFallback_obj]
    | Json.obj o, _ =>
      simp [normalizeFrame, Json.truthy, h3, pyContains, h1, h2, pyIndex, hres, h4, hc,
        structuredFallback_obj]

/-- Witness for C7 at the P3 body (structured) and the P5 body (raw). -/
theorem c7_witness :
    parse_sse_response p3Body = Json.obj [("x", Json.num 2)] ∧
    parse_sse_response p5Body = Json.obj [("foo", Json.str "bar")] := by
  constructor
  · exact c7_structured_and_raw p3Body
      [("result", Json.obj [("structuredContent", Json.obj [("x", Json.num 2)])])]
      [("structuredContent", Json.obj [("x", Json.num 2)])] rfl rfl rfl
      (fun c h => Option.noConfusion (show (none : Option Json) = some c from h))
  · exact c7_structured_and_raw p5Body
      [("result", Json.obj [("foo", Json.str "bar")])]
      [("foo", Json.str "bar")] rfl rfl rfl
      (fun c h => Option.noConfusion (show (none : Option Json) = some c from h))

/-- Claim C8 counterexample: in a body whose only data line is preceded by
a tab, no raw line begins with the data marker, yet the normalizer still
produces the frame `{a:1}` — it trims each line before the marker test,
so it does not collect "exactly the lines beginning with the data
prefix". -/
theorem c8_counterexample :
    (∀ l ∈ pySplitLines indentedLineBody, startsWithData l = false) ∧
    parse_sse_response indentedLineBody = Json.obj [("a", Json.num 1)] :=
  ⟨by decide, rfl⟩

/-- Claim C8 (amended): for every SSE body, the normalizer trims the body,
splits it into lines, trims each line, collects exactly the trimmed lines
beginning with the data marker, strips the marker, skips empty payloads,
the `[DONE]` sentinel and payloads that do not parse as JSON, and uses the
first successfully parsed frame, ignoring all later frames — stated as an
equivalence between the fused scanning loop and the claim's
collect-then-parse pipeline. -/
theorem c8_line_collection (body : String) :
    firstFrame (sseLines body) = claimFirstFrame (sseLines body) :=
  firstFrame_eq_claim (sseLines body)

/-- Claim C9: across any sequence of `call_tool` invocations on one client
instance (each with its own environment and tool), the JSON-RPC ids
carried by the wire exchanges — both initialize requests and all
tools/call requests — are pairwise strictly increasing in order of issue;
in particular no id is ever reused. -/
theorem c9_ids_strictly_increasing (calls : List (NetEnv × String)) :
    List.Pairwise (fun a b => a < b) (traceIds (run_calls calls ClientState.new).2) :=
  (run_calls_ids calls ClientState.new).1

/-- Claim C10: a falsy first frame — in particular the valid empty object
`{}` — makes the normalizer return the no-frame failure value `None`
(Json.null), exactly as when no frame parses at all, so the two are
indistinguishable at the public interface. -/
theorem c10_falsy_frame_is_no_frame :
    (∀ body v, firstFrame (sseLines body) = some v → v.truthy = false →
      parse_sse_response body = Json.null) ∧
    (∀ body, firstFrame (sseLines body) = none → parse_sse_response body = Json.null) := by
  constructor
  · intro body v hf hv
    rw [parse_sse_response, hf]
    simp [normalizeFrame, hv]
  · intro body hf
    rw [parse_sse_response, hf]

/-- Witness for C10 at the empty-object body and the empty body. -/
theorem c10_witness :
    parse_sse_response emptyObjectBody = Json.null ∧
    parse_sse_response "" = Json.null :=
  ⟨c10_falsy_frame_is_no_frame.1 emptyObjectBody (Json.obj []) rfl rfl,
    c10_falsy_frame_is_no_frame.2 "" rfl⟩
